import Mathlib

/-!
Shallow embedding of the `tls-api` interface crate (`src/api/src/lib.rs`):
the opaque `Error` wrapper, the host I/O error conversions, the tagged
`Certificate` byte buffer, the type-erased `TlsStream` wrapper, and the
connector/acceptor trait dictionaries, together with theorems settling the
spec claims about them.
-/

namespace TlsApi

/-- Error kinds of the host platform I/O error type (`std::io::ErrorKind`);
only a representative sample of kinds is modelled, the code under scrutiny
never inspects the kind of an incoming error. -/
inductive ErrorKind : Type where
  | other
  | notFound
  | permissionDenied
  | connectionReset
  | wouldBlock
  deriving DecidableEq

/-- Display text the host standard library uses for an I/O error that
carries only a kind (no custom payload). -/
def ErrorKind.message : ErrorKind → String
  | .other => "other error"
  | .notFound => "entity not found"
  | .permissionDenied => "permission denied"
  | .connectionReset => "connection reset"
  | .wouldBlock => "operation would block"

/-- A boxed dynamic error value (`Box<dyn error::Error + Send + Sync>`).
The constructors cover the error shapes that reach this layer:
* `strMsg`: a plain string message boxed as an error (what
  `io::Error::new(kind, &str)` stores as its payload); its `source` is none;
* `ioKindOnly`: a host `io::Error` holding only a kind;
* `ioCustom`: a host `io::Error` holding a kind plus a boxed custom payload;
* `wrapped`: the crate's own `Error` viewed as a dynamic error value
  (this is what `io::Error::from(Error)` boxes);
* `leafMsg`: an arbitrary user error with a message and no cause;
* `customWith`: an arbitrary user error with a message and a cause. -/
inductive ErrVal : Type where
  | strMsg (message : String)
  | ioKindOnly (kind : ErrorKind)
  | ioCustom (kind : ErrorKind) (payload : ErrVal)
  | wrapped (inner : ErrVal)
  | leafMsg (message : String)
  | customWith (message : String) (cause : ErrVal)
  deriving DecidableEq

/-- `error::Error::source` of each modelled error shape. A host `io::Error`
with a custom payload reports the payload's own source (std behaviour);
the crate's `Error` delegates to the boxed value (`lib.rs` lines 36-40);
a boxed string and a kind-only I/O error have no source. -/
def ErrVal.source : ErrVal → Option ErrVal
  | .strMsg _ => none
  | .ioKindOnly _ => none
  | .ioCustom _ p => p.source
  | .wrapped i => i.source
  | .leafMsg _ => none
  | .customWith _ c => some c

/-- `Display` text of each modelled error shape. A host `io::Error` with a
custom payload displays the payload; the crate's `Error` displays the boxed
value (`lib.rs` lines 48-52). -/
def ErrVal.display : ErrVal → String
  | .strMsg m => m
  | .ioKindOnly k => k.message
  | .ioCustom _ p => p.display
  | .wrapped i => i.display
  | .leafMsg m => m
  | .customWith _ c => c.display ++ " caused this"

/-- The list of error values reachable from this one by iterating
`source()`: the head is `self.source()`, then its source, and so on. -/
def ErrVal.sourceList : ErrVal → List ErrVal
  | .strMsg _ => []
  | .ioKindOnly _ => []
  | .ioCustom _ p => p.sourceList
  | .wrapped i => i.sourceList
  | .leafMsg _ => []
  | .customWith _ c => c :: c.sourceList

/-- `pub struct Error(Box<dyn error::Error + Send + Sync + 'static>)`
(`lib.rs` line 19). -/
structure Error : Type where
  boxed : ErrVal
  deriving DecidableEq

/-- `Error::new` (`lib.rs` lines 23-25): wrap any error value. -/
def Error.new (e : ErrVal) : Error := ⟨e⟩

/-- `Error::into_inner` (`lib.rs` lines 31-33): return the boxed cause. -/
def Error.into_inner (e : Error) : ErrVal := e.boxed

/-- `impl error::Error for Error` (`lib.rs` lines 36-40): `source`
delegates to the boxed value's `source`. -/
def Error.source (e : Error) : Option ErrVal := e.boxed.source

/-- `impl fmt::Display for Error` (`lib.rs` lines 48-52): delegates to the
boxed value. -/
def Error.display (e : Error) : String := e.boxed.display

/-- The errors reachable from the opaque `Error` by iterating `source()`. -/
def Error.sourceChain (e : Error) : List ErrVal := e.boxed.sourceList

/-- `Error::new_other` (`lib.rs` lines 27-29):
`Error::new(io::Error::new(ErrorKind::Other, message))`; the host boxes the
message string as the custom payload. -/
def Error.new_other (message : String) : Error :=
  Error.new (ErrVal.ioCustom .other (.strMsg message))

/-- A host `std::io::Error`: a kind plus an optional boxed custom payload. -/
structure IoError : Type where
  kind : ErrorKind
  payload : Option ErrVal
  deriving DecidableEq

/-- A host `io::Error` viewed as a boxed dynamic error value. -/
def IoError.toErrVal (e : IoError) : ErrVal :=
  match e.payload with
  | none => .ioKindOnly e.kind
  | some p => .ioCustom e.kind p

/-- `source()` of a host `io::Error`. -/
def IoError.source (e : IoError) : Option ErrVal := e.toErrVal.source

/-- `Display` of a host `io::Error`. -/
def IoError.display (e : IoError) : String := e.toErrVal.display

/-- `impl From<io::Error> for Error` (`lib.rs` lines 54-58):
`Error::new(err)`, a direct wrap of the host error. -/
def Error.fromIoError (err : IoError) : Error := Error.new err.toErrVal

/-- `impl From<Error> for io::Error` (`lib.rs` lines 60-64):
`io::Error::new(ErrorKind::Other, err)` — the kind is always `Other` and
the crate error becomes the boxed custom payload. -/
def IoError.fromError (err : Error) : IoError :=
  ⟨.other, some (.wrapped err.boxed)⟩

/-- `pub type Result<A> = result::Result<A, Error>` (`lib.rs` line 69). -/
def TlsResult (A : Type) : Type := Except Error A

/-- `pub enum CertificateFormat { DER, PEM }` (`lib.rs` lines 71-74). -/
inductive CertificateFormat : Type where
  | DER
  | PEM
  deriving DecidableEq

/-- `pub struct Certificate { bytes: Vec<u8>, format: CertificateFormat }`
(`lib.rs` lines 77-80); bytes are modelled as a list of naturals. -/
structure Certificate : Type where
  bytes : List Nat
  format : CertificateFormat
  deriving DecidableEq

/-- `Certificate::from_der` (`lib.rs` lines 83-88): tag raw bytes as DER. -/
def Certificate.from_der (der : List Nat) : Certificate := ⟨der, .DER⟩

/-- `Certificate::into_der` (`lib.rs` lines 90-96): the bytes if the tag is
DER, otherwise none; no conversion is attempted. -/
def Certificate.into_der (c : Certificate) : Option (List Nat) :=
  match c.format with
  | .DER => some c.bytes
  | _ => none

/-- `Certificate::into_pem` (`lib.rs` lines 97-103): the bytes if the tag is
PEM, otherwise none; no conversion is attempted. -/
def Certificate.into_pem (c : Certificate) : Option (List Nat) :=
  match c.format with
  | .PEM => some c.bytes
  | _ => none

/-- `std::task::Poll`. -/
inductive Poll (α : Type) : Type where
  | ready (a : α)
  | pending

/-- An abstract `std::task::Context` (only its identity matters here). -/
structure Context : Type where
  wakerId : Nat

/-- `io::Result`. -/
def IoResult (α : Type) : Type := Except IoError α

/-- A boxed `dyn TlsStreamImpl<S>` trait object (`lib.rs` lines 106-115
plus the `AsyncRead`/`AsyncWrite` capability): an unknown implementation
type `I`, its current state, and the trait's methods. Methods taking
`&mut self` are modelled by state passing; `poll_read` also returns the
updated caller buffer, and both runtime-profile shutdown methods
(`poll_close` / `poll_shutdown`, `lib.rs` lines 170-178) are present. -/
structure TlsStreamImplBox (S : Type) : Type 1 where
  I : Type
  state : I
  poll_read : I → Context → List Nat → Poll (IoResult Nat) × I × List Nat
  poll_write : I → Context → List Nat → Poll (IoResult Nat) × I
  poll_flush : I → Context → Poll (IoResult Unit) × I
  poll_shutdown : I → Context → Poll (IoResult Unit) × I
  poll_close : I → Context → Poll (IoResult Unit) × I
  get_alpn_protocol : I → Option (List Nat)
  get_mut : I → S
  get_ref : I → S

/-- `pub struct TlsStream<S>(Box<dyn TlsStreamImpl<S>>)` (`lib.rs`
line 127). -/
structure TlsStream (S : Type) : Type 1 where
  imp : TlsStreamImplBox S

/-- `TlsStream::new` (`lib.rs` lines 130-132): box an implementation. -/
def TlsStream.new {S : Type} (imp : TlsStreamImplBox S) : TlsStream S := ⟨imp⟩

/-- `TlsStream::get_mut` (`lib.rs` lines 134-136): `self.0.get_mut()`. -/
def TlsStream.get_mut {S : Type} (ts : TlsStream S) : S :=
  ts.imp.get_mut ts.imp.state

/-- `TlsStream::get_ref` (`lib.rs` lines 138-140): `self.0.get_ref()`. -/
def TlsStream.get_ref {S : Type} (ts : TlsStream S) : S :=
  ts.imp.get_ref ts.imp.state

/-- `TlsStream::get_alpn_protocol` (`lib.rs` lines 142-144):
`self.0.get_alpn_protocol()`. -/
def TlsStream.get_alpn_protocol {S : Type} (ts : TlsStream S) :
    Option (List Nat) :=
  ts.imp.get_alpn_protocol ts.imp.state

/-- `impl AsyncRead for TlsStream` (`lib.rs` lines 147-155):
`Pin::new(&mut self.0).poll_read(cx, buf)`. -/
def TlsStream.poll_read {S : Type} (ts : TlsStream S) (cx : Context)
    (buf : List Nat) : Poll (IoResult Nat) × TlsStream S × List Nat :=
  let r := ts.imp.poll_read ts.imp.state cx buf
  (r.1, ⟨{ ts.imp with state := r.2.1 }⟩, r.2.2)

/-- `poll_write` of `impl AsyncWrite for TlsStream` (`lib.rs`
lines 158-164): `Pin::new(&mut self.0).poll_write(cx, buf)`. -/
def TlsStream.poll_write {S : Type} (ts : TlsStream S) (cx : Context)
    (buf : List Nat) : Poll (IoResult Nat) × TlsStream S :=
  let r := ts.imp.poll_write ts.imp.state cx buf
  (r.1, ⟨{ ts.imp with state := r.2 }⟩)

/-- `poll_flush` of `impl AsyncWrite for TlsStream` (`lib.rs`
lines 166-168): `Pin::new(&mut self.0).poll_flush(cx)`. -/
def TlsStream.poll_flush {S : Type} (ts : TlsStream S) (cx : Context) :
    Poll (IoResult Unit) × TlsStream S :=
  let r := ts.imp.poll_flush ts.imp.state cx
  (r.1, ⟨{ ts.imp with state := r.2 }⟩)

/-- `poll_shutdown` of `impl AsyncWrite for TlsStream` (tokio profile,
`lib.rs` lines 175-178): `Pin::new(&mut self.0).poll_shutdown(ctx)`. -/
def TlsStream.poll_shutdown {S : Type} (ts : TlsStream S) (cx : Context) :
    Poll (IoResult Unit) × TlsStream S :=
  let r := ts.imp.poll_shutdown ts.imp.state cx
  (r.1, ⟨{ ts.imp with state := r.2 }⟩)

/-- `poll_close` of `impl AsyncWrite for TlsStream` (async-std profile,
`lib.rs` lines 170-173): `Pin::new(&mut self.0).poll_close(ctx)`. -/
def TlsStream.poll_close {S : Type} (ts : TlsStream S) (cx : Context) :
    Poll (IoResult Unit) × TlsStream S :=
  let r := ts.imp.poll_close ts.imp.state cx
  (r.1, ⟨{ ts.imp with state := r.2 }⟩)

/-- The `TlsConnectorBuilder` trait (`lib.rs` lines 182-198) as a method
dictionary over a builder type `B`, a connector type `Conn` and an
underlying-builder type `U`. `&mut self` methods are modelled by state
passing; `supports_alpn` is an associated function, hence a plain constant
of the dictionary. -/
structure TlsConnectorBuilderDict (B Conn U : Type) : Type where
  underlying_mut : B → U
  supports_alpn : Bool
  set_alpn_protocols : B → List (List Nat) → TlsResult B
  set_verify_hostname : B → Bool → TlsResult B
  add_root_certificate : B → Certificate → TlsResult B
  build : B → TlsResult Conn

/-- The `TlsConnector` trait (`lib.rs` lines 201-217) as a dictionary: its
associated `Builder` dictionary (the asynchronous `connect` method is not
modelled; no claim depends on it). -/
structure TlsConnectorDict (B Conn U : Type) : Type where
  builder : TlsConnectorBuilderDict B Conn U

/-- The provided method `TlsConnector::supports_alpn` (`lib.rs`
lines 204-206): `<Self::Builder as TlsConnectorBuilder>::supports_alpn()`. -/
def TlsConnectorDict.supports_alpn {B Conn U : Type}
    (d : TlsConnectorDict B Conn U) : Bool :=
  d.builder.supports_alpn

/-- The `TlsAcceptorBuilder` trait (`lib.rs` lines 220-233) as a method
dictionary. -/
structure TlsAcceptorBuilderDict (B Acc U : Type) : Type where
  underlying_mut : B → U
  supports_alpn : Bool
  set_alpn_protocols : B → List (List Nat) → TlsResult B
  build : B → TlsResult Acc

/-- The `TlsAcceptor` trait (`lib.rs` lines 236-249) as a dictionary. -/
structure TlsAcceptorDict (B Acc U : Type) : Type where
  builder : TlsAcceptorBuilderDict B Acc U

/-- The provided method `TlsAcceptor::supports_alpn` (`lib.rs`
lines 239-241): `<Self::Builder as TlsAcceptorBuilder>::supports_alpn()`. -/
def TlsAcceptorDict.supports_alpn {B Acc U : Type}
    (d : TlsAcceptorDict B Acc U) : Bool :=
  d.builder.supports_alpn

/-- C1: For every byte vector `b`, `Certificate::from_der(b)` always
succeeds, yielding a certificate tagged DER whose stored bytes are `b`; on
that certificate `into_der()` returns `some b` and `into_pem()` returns
`none` — no implicit format conversion is performed. -/
theorem from_der_into_der_roundtrip : ∀ (b : List Nat),
    (Certificate.from_der b).format = CertificateFormat.DER ∧
    (Certificate.from_der b).bytes = b ∧
    (Certificate.from_der b).into_der = some b ∧
    (Certificate.from_der b).into_pem = none :=
  fun _ => ⟨rfl, rfl, rfl, rfl⟩

/-- C2: For every certificate whose format tag is PEM with stored bytes
`b`, `into_pem()` returns `some b` and `into_der()` returns `none`. -/
theorem pem_certificate_accessors (c : Certificate)
    (h : c.format = CertificateFormat.PEM) :
    c.into_pem = some c.bytes ∧ c.into_der = none := by
  obtain ⟨b, fmt⟩ := c
  cases fmt with
  | DER => simp at h
  | PEM => exact ⟨rfl, rfl⟩

/-- Witness for C2 at the concrete certificate `⟨[1, 2, 3], PEM⟩`. -/
theorem pem_certificate_accessors_witness :
    (Certificate.mk [1, 2, 3] CertificateFormat.PEM).into_pem
        = some [1, 2, 3] ∧
    (Certificate.mk [1, 2, 3] CertificateFormat.PEM).into_der = none :=
  pem_certificate_accessors (Certificate.mk [1, 2, 3] .PEM) rfl

/-- C3: Every operation of the `TlsStream` wrapper — `poll_read`,
`poll_write`, `poll_flush`, `poll_shutdown`, `poll_close`,
`get_alpn_protocol`, `get_ref`, `get_mut` — returns exactly the result of
invoking the same operation on the boxed implementation, in the same
state, with the same arguments; the state and buffer it passes on are
exactly those the implementation produced, so the wrapper adds no
buffering or semantics of its own. -/
theorem tls_stream_forwards_all_operations :
    ∀ (S : Type) (ts : TlsStream S) (cx : Context) (rbuf wbuf : List Nat),
    (ts.poll_read cx rbuf).1 = (ts.imp.poll_read ts.imp.state cx rbuf).1 ∧
    (ts.poll_read cx rbuf).2.1.imp.state
        = (ts.imp.poll_read ts.imp.state cx rbuf).2.1 ∧
    (ts.poll_read cx rbuf).2.2 = (ts.imp.poll_read ts.imp.state cx rbuf).2.2 ∧
    (ts.poll_write cx wbuf).1 = (ts.imp.poll_write ts.imp.state cx wbuf).1 ∧
    (ts.poll_write cx wbuf).2.imp.state
        = (ts.imp.poll_write ts.imp.state cx wbuf).2 ∧
    (ts.poll_flush cx).1 = (ts.imp.poll_flush ts.imp.state cx).1 ∧
    (ts.poll_flush cx).2.imp.state = (ts.imp.poll_flush ts.imp.state cx).2 ∧
    (ts.poll_shutdown cx).1 = (ts.imp.poll_shutdown ts.imp.state cx).1 ∧
    (ts.poll_shutdown cx).2.imp.state
        = (ts.imp.poll_shutdown ts.imp.state cx).2 ∧
    (ts.poll_close cx).1 = (ts.imp.poll_close ts.imp.state cx).1 ∧
    (ts.poll_close cx).2.imp.state = (ts.imp.poll_close ts.imp.state cx).2 ∧
    ts.get_alpn_protocol = ts.imp.get_alpn_protocol ts.imp.state ∧
    ts.get_ref = ts.imp.get_ref ts.imp.state ∧
    ts.get_mut = ts.imp.get_mut ts.imp.state :=
  fun _ _ _ _ _ =>
    ⟨rfl, rfl, rfl, rfl, rfl, rfl, rfl, rfl, rfl, rfl, rfl, rfl, rfl, rfl⟩

/-- C4: For every error value `e` wrapped into the opaque `Error` — via
`Error::new`, or via `Error::from` for a host I/O error — the resulting
`Error`'s `source()` equals the wrapped value's own `source()`. -/
theorem error_new_preserves_source :
    (∀ (e : ErrVal), (Error.new e).source = e.source) ∧
    (∀ (ioe : IoError), (Error.fromIoError ioe).source = ioe.source) :=
  ⟨fun _ => rfl, fun _ => rfl⟩

/-- C5 counterexample: for the concrete cause `strMsg "boom"` (an error
with no source of its own), the opaque `Error`'s `source()` chain is empty,
so the wrapped cause itself is not reachable through the `source()` chain. -/
theorem wrapped_cause_not_in_source_chain :
    ¬ ErrVal.strMsg "boom"
        ∈ (Error.new (ErrVal.strMsg "boom")).sourceChain := by
  decide

/-- C5 (amended): For every error value `e` wrapped via `Error::new`, the
whole cause chain of `e` remains reachable through the opaque `Error`'s
`source()` chain — the chains coincide exactly — and `e` itself remains
reachable via `into_inner` and via the delegated `Display` text, though
`e` is not itself a node of the `source()` chain. -/
theorem error_cause_chain_preserved : ∀ (e : ErrVal),
    (Error.new e).sourceChain = e.sourceList ∧
    (Error.new e).display = e.display ∧
    (Error.new e).into_inner = e :=
  fun _ => ⟨rfl, rfl, rfl⟩

/-- C6: Converting an opaque `Error` into a host `io::Error` always yields
the generic `Other` kind regardless of what the wrapped value was, while
the display text and the source chain are preserved and the wrapped value
itself is kept as the custom payload; conversely, converting a host
`io::Error` into `Error` is a lossless direct wrap — `into_inner` returns
the very same host error value. -/
theorem error_io_error_conversions :
    (∀ (e : Error),
      (IoError.fromError e).kind = ErrorKind.other ∧
      (IoError.fromError e).payload = some (ErrVal.wrapped e.boxed) ∧
      (IoError.fromError e).display = e.display ∧
      (IoError.fromError e).source = e.source) ∧
    (∀ (ioe : IoError), (Error.fromIoError ioe).into_inner = ioe.toErrVal) :=
  ⟨fun _ => ⟨rfl, rfl, rfl, rfl⟩, fun _ => rfl⟩

/-- C7: For every error value `e`, `Error::new(e).into_inner()` returns the
original boxed cause `e` unchanged — wrapping then unwrapping is a lossless
round trip. -/
theorem error_new_into_inner_roundtrip :
    ∀ (e : ErrVal), (Error.new e).into_inner = e :=
  fun _ => rfl

/-- C8: For every connector dictionary and every acceptor dictionary, the
provided `supports_alpn` on the built connector/acceptor type returns
exactly the `supports_alpn` of its builder type; since the dictionary
field is a plain constant (an associated function, not a method of an
instance), the value observed before and after `build()` is the same
static query. -/
theorem supports_alpn_stable :
    ∀ (B Conn U BA Acc UA : Type) (c : TlsConnectorDict B Conn U)
      (a : TlsAcceptorDict BA Acc UA),
    c.supports_alpn = c.builder.supports_alpn ∧
    a.supports_alpn = a.builder.supports_alpn :=
  fun _ _ _ _ _ _ _ _ => ⟨rfl, rfl⟩

/-- C9: Every operation of this layer is total: `Error::new`,
`Error::new_other`, `Error::into_inner`, both `Error` conversions,
`Certificate::from_der`, `into_der` and `into_pem` each produce a value on
every input (they are total functions of the embedding; none has an error
or panic case). -/
theorem layer_operations_total :
    ∀ (e : ErrVal) (err : Error) (ioe : IoError) (m : String)
      (b : List Nat) (c d : Certificate),
    ∃ (r1 r2 : Error) (r3 : ErrVal) (r4 : Error) (r5 : IoError)
      (r6 : Certificate) (r7 r8 : Option (List Nat)),
      Error.new e = r1 ∧ Error.new_other m = r2 ∧ err.into_inner = r3 ∧
      Error.fromIoError ioe = r4 ∧ IoError.fromError err = r5 ∧
      Certificate.from_der b = r6 ∧ c.into_der = r7 ∧ d.into_pem = r8 :=
  fun e err ioe m b c d =>
    ⟨Error.new e, Error.new_other m, err.into_inner, Error.fromIoError ioe,
     IoError.fromError err, Certificate.from_der b, c.into_der, d.into_pem,
     rfl, rfl, rfl, rfl, rfl, rfl, rfl, rfl⟩

end TlsApi
